import Mathlib

/-!
Verification of the TIME_EXP_PY perceptual-timing experiment code.

Shallow embedding of the Python sources (`trajectory.py`, `moving_point.py`,
`block_manager.py`, `data_collector.py`, `reproduction_task.py`,
`exp_config.py`) into Lean.  Python floats are modelled as rationals,
`pygame.time.get_ticks()` readings are passed explicitly as an integer
argument `now`, mutable objects become explicit state records, and the few
places where the Python code can raise are modelled with an `Option`/flag
result carrying the partially mutated state at the moment of the raise
(matching in-place mutation semantics).  Drawing methods and print calls are
omitted: they read state but never change the fields reasoned about here.
-/

set_option maxHeartbeats 1000000

namespace TimeExpPy

/-- Fuel-driven loop of `isqrt`: starting from `k`, climb while
`(k+1)² ≤ n`.  Structural recursion keeps it kernel-reducible. -/
def isqrtAux (n : ℕ) : ℕ → ℕ → ℕ
  | 0, k => k
  | fuel + 1, k => if (k + 1) * (k + 1) ≤ n then isqrtAux n fuel (k + 1) else k

/-- Integer square root (⌊√n⌋), kernel-reducible. -/
def isqrt (n : ℕ) : ℕ := isqrtAux n n 0

/-- Computable rational stand-in for Python's `x ** 0.5`
(√(a/b) = √(a·b)/b).  It is exact on perfect squares (which covers every
concrete input appearing in this development), maps nonpositive inputs to
`0`, is nonnegative, and is positive on positive input.  No theorem below
depends on any other property of the square root, so replacing the real
square root by this function does not change the truth value of any
statement proved here. -/
def ratSqrt (q : ℚ) : ℚ :=
  if q ≤ 0 then 0 else mkRat (isqrt (q.num.toNat * q.den)) q.den

/-- A 2-D point, as produced by the trajectory library (`trajectory.py`). -/
abbrev Point := ℚ × ℚ

/-- `Trajectory._segment_length` / `MovingPoint._segment_length`:
Euclidean length of one segment (`** 2` is written as a product to keep the
definition kernel-reducible). -/
def segmentLength (p1 p2 : Point) : ℚ :=
  ratSqrt ((p2.1 - p1.1) * (p2.1 - p1.1) + (p2.2 - p1.2) * (p2.2 - p1.2))

/-- `Trajectory` (trajectory.py): the semantic payload is the ordered point
list; `total_length` is computed from it at construction time and the class
has no mutating methods, so it is embedded as a derived function below.
(The `color` / `line_width` drawing attributes are rendering-only.) -/
structure Trajectory where
  points : List Point
deriving DecidableEq

/-- Loop of `Trajectory._calculate_total_length`: sum of the segment lengths
of consecutive points (0 for fewer than two points). -/
def totalLengthAux : List Point → ℚ
  | p :: q :: rest => segmentLength p q + totalLengthAux (q :: rest)
  | _ => 0

/-- `Trajectory._calculate_total_length` / `Trajectory.get_total_length`. -/
def Trajectory.total_length (t : Trajectory) : ℚ :=
  totalLengthAux t.points

/-- `Trajectory.calculate_duration`: duration in ms of traversing the
trajectory at `speed` px/frame, at 60 frames per second. -/
def Trajectory.calculate_duration (t : Trajectory) (speed : ℚ) : ℚ :=
  if speed ≤ 0 ∨ t.points.length < 2 then 0
  else t.total_length / speed / 60 * 1000

/-- `MovingPoint._interpolate_points`. -/
def interpolatePoints (p1 p2 : Point) (progress : ℚ) : Point :=
  (p1.1 + (p2.1 - p1.1) * progress, p1.2 + (p2.2 - p1.2) * progress)

/-- State of a `MovingPoint` (moving_point.py), one field per instance
attribute set in `__init__`.  `current_segment` is a natural number (it is
only ever 0 or incremented); comparisons against `len(points) - 1` are done
in ℤ to match Python's signed arithmetic.  `movement_start_time` is `none`
while Python holds `None`.  `occlusion_type` is the Python string. -/
structure MovingPoint where
  trajectory : Trajectory
  speed : ℚ
  current_segment : ℕ
  progress : ℚ
  current_position : Point
  is_moving : Bool
  is_finished : Bool
  finished_timer : ℤ
  finished_delay : ℤ
  stopped_by_user : Bool
  occlusion_enabled : Bool
  occlusion_type : String
  occlusion_range : List ℚ
  occlusion_start_segment : ℕ
  occlusion_start_progress : ℚ
  occlusion_end_segment : ℕ
  occlusion_end_progress : ℚ
  is_visible : Bool
  occlusion_delay : ℤ
  movement_start_time : Option ℤ
  occlusion_started : Bool
  occlusion_active : Bool
deriving DecidableEq

/-- Loop of `MovingPoint._find_segment_and_progress`: walk the segments
accumulating arc length until the target length is covered; `fb` is the
fallback `(len(points) - 2, 1.0)` returned when the loop exhausts.
When the first matching segment has length zero Python raises
`ZeroDivisionError`; in ℚ the division yields 0 instead — this corner
(reachable only when the very first segment is degenerate and the target
length is ≤ 0) is not relied on by any theorem below. -/
def findSegAux (fb : ℕ × ℚ) : List Point → ℚ → ℚ → ℕ → ℕ × ℚ
  | p :: q :: rest, targetLength, currentLength, i =>
    let sl := segmentLength p q
    if currentLength + sl ≥ targetLength then (i, (targetLength - currentLength) / sl)
    else findSegAux fb (q :: rest) targetLength (currentLength + sl) (i + 1)
  | _, _, _, _ => fb

/-- `MovingPoint._find_segment_and_progress`. -/
def findSegmentAndProgress (t : Trajectory) (targetProgress : ℚ) : ℕ × ℚ :=
  if t.points.length < 2 then (0, 0)
  else findSegAux (t.points.length - 2, 1) t.points (t.total_length * targetProgress) 0 0

/-- `MovingPoint._setup_automatic_occlusion`.  The early `return` when there
are no segments leaves the state unchanged; the "timed" branch only
(re)enables occlusion; otherwise the `[start, end]` window is resolved to
segment/progress coordinates.  (Print statements omitted.) -/
def MovingPoint.setupAutomaticOcclusion (s : MovingPoint) : MovingPoint :=
  if (s.trajectory.points.length : ℤ) - 1 ≤ 0 then s
  else if s.occlusion_type = "timed" then
    { s with occlusion_enabled := true }
  else
    let pair :=
      if s.occlusion_range.length = 2 then
        (s.occlusion_range.getD 0 0, s.occlusion_range.getD 1 0)
      else if s.occlusion_type = "half" then ((1 : ℚ) / 2, (1 : ℚ))
      else if s.occlusion_type = "third" then ((2 : ℚ) / 3, (1 : ℚ))
      else ((1 : ℚ) / 2, (1 : ℚ))
    let st := findSegmentAndProgress s.trajectory pair.1
    let en := findSegmentAndProgress s.trajectory pair.2
    { s with
      occlusion_start_segment := st.1, occlusion_start_progress := st.2,
      occlusion_end_segment := en.1, occlusion_end_progress := en.2,
      occlusion_enabled := true }

/-- `MovingPoint.__init__`.  `occlusionRange = none` models passing `None`
(or omitting the argument); `occlusion_range or [0.5, 1.0]` replaces any
falsy value (None or the empty list) by the default. -/
def MovingPoint.init (t : Trajectory) (speed : ℚ) (occlusionType : String)
    (occlusionRange : Option (List ℚ)) (occlusionDelay : ℤ) : MovingPoint :=
  MovingPoint.setupAutomaticOcclusion
    { trajectory := t
      speed := speed
      current_segment := 0
      progress := 0
      current_position := t.points.headD (0, 0)
      is_moving := true
      is_finished := false
      finished_timer := 0
      finished_delay := 900
      stopped_by_user := false
      occlusion_enabled := true
      occlusion_type := occlusionType
      occlusion_range :=
        match occlusionRange with
        | some r => if r.isEmpty then [1/2, 1] else r
        | none => [1/2, 1]
      occlusion_start_segment := 0
      occlusion_start_progress := 0
      occlusion_end_segment := 0
      occlusion_end_progress := 1
      is_visible := true
      occlusion_delay := occlusionDelay
      movement_start_time := none
      occlusion_started := false
      occlusion_active := false }

/-- `MovingPoint.disable_occlusion`. -/
def MovingPoint.disable_occlusion (s : MovingPoint) : MovingPoint :=
  { s with occlusion_enabled := false, is_visible := true, occlusion_active := false }

/-- `MovingPoint.start_movement` (`now` is `pygame.time.get_ticks()`). -/
def MovingPoint.start_movement (s : MovingPoint) (now : ℤ) : MovingPoint :=
  { s with movement_start_time := some now, occlusion_started := false,
           occlusion_active := false }

/-- `MovingPoint.finish_movement`.  On an empty point list Python raises
`IndexError` at `self.trajectory.points[-1]` after having already set
`is_moving`/`is_finished`/`finished_timer`; the returned flag is `false` in
that case and the state carries exactly the mutations made before the raise. -/
def MovingPoint.finish_movement (s : MovingPoint) (now : ℤ) : MovingPoint × Bool :=
  let s1 := { s with is_moving := false, is_finished := true, finished_timer := now }
  match s.trajectory.points.getLast? with
  | none => (s1, false)
  | some p =>
    ({ s1 with current_position := p, is_visible := true, occlusion_active := false },
     true)

/-- `MovingPoint._is_position_in_range`. -/
def isPositionInRange (current st en : ℕ × ℚ) : Bool :=
  if current.1 < st.1 then false
  else if current.1 > en.1 then false
  else if current.1 = st.1 ∧ current.2 < st.2 then false
  else if current.1 = en.1 ∧ current.2 > en.2 then false
  else true

/-- `MovingPoint._update_visibility`. -/
def MovingPoint.updateVisibility (s : MovingPoint) (now : ℤ) : MovingPoint :=
  if !s.occlusion_enabled then
    { s with is_visible := true, occlusion_active := false }
  else if s.occlusion_type = "timed" then
    match s.movement_start_time with
    | none => { s with is_visible := true, occlusion_active := false }
    | some t0 =>
      let elapsed := now - t0
      if elapsed ≥ s.occlusion_delay ∧ !s.occlusion_started then
        { s with occlusion_started := true, occlusion_active := true, is_visible := false }
      else if s.occlusion_started then
        { s with occlusion_active := true, is_visible := false }
      else
        { s with occlusion_active := false, is_visible := true }
  else
    if isPositionInRange (s.current_segment, s.progress)
        (s.occlusion_start_segment, s.occlusion_start_progress)
        (s.occlusion_end_segment, s.occlusion_end_progress) then
      { s with is_visible := false, occlusion_active := true }
    else
      { s with is_visible := true, occlusion_active := false }

/-- `MovingPoint.update`.  The `dt` argument is kept exactly as in the
source signature (where it is never read); the returned flag is `false`
when the call would raise (only possible through `finish_movement` on an
empty point list). -/
def MovingPoint.update (s : MovingPoint) (dt : ℚ) (now : ℤ) : MovingPoint × Bool :=
  if !s.is_moving ∨ s.is_finished then (s, true)
  else
    let points := s.trajectory.points
    if (s.current_segment : ℤ) ≥ (points.length : ℤ) - 1 then s.finish_movement now
    else
      let s1 := s.updateVisibility now
      let startPoint := points.getD s1.current_segment (0, 0)
      let endPoint := points.getD (s1.current_segment + 1) (0, 0)
      let segLen := segmentLength startPoint endPoint
      let s2 :=
        if segLen > 0 then { s1 with progress := s1.progress + s1.speed / segLen }
        else { s1 with progress := 1 }
      if s2.progress ≥ 1 then
        let s3 := { s2 with current_segment := s2.current_segment + 1, progress := 0 }
        if (s3.current_segment : ℤ) ≥ (points.length : ℤ) - 1 then s3.finish_movement now
        else
          let startPoint2 := points.getD s3.current_segment (0, 0)
          let endPoint2 := points.getD (s3.current_segment + 1) (0, 0)
          ({ s3 with current_position := interpolatePoints startPoint2 endPoint2 s3.progress },
           true)
      else
        ({ s2 with current_position := interpolatePoints startPoint endPoint s2.progress },
         true)

/-- `MovingPoint.stop_by_user`. -/
def MovingPoint.stop_by_user (s : MovingPoint) (now : ℤ) : MovingPoint :=
  if s.is_moving ∧ !s.is_finished then
    let s1 := { s with is_moving := false, is_finished := true, finished_timer := now,
                       stopped_by_user := true }
    if s.occlusion_active then { s1 with is_visible := false }
    else { s1 with is_visible := true }
  else s

/-- `MovingPoint.reset`. -/
def MovingPoint.reset (s : MovingPoint) (t : Trajectory) : MovingPoint :=
  MovingPoint.setupAutomaticOcclusion
    { s with
      trajectory := t
      current_segment := 0
      progress := 0
      current_position := t.points.headD (0, 0)
      is_moving := true
      is_finished := false
      finished_timer := 0
      stopped_by_user := false
      movement_start_time := none
      occlusion_started := false
      occlusion_active := false
      occlusion_enabled := true
      is_visible := true }

/-- The visibility/occlusion invariant exactly as the specification states
it: with occlusion enabled, `occlusion_active` is the complement of
`is_visible`; with occlusion disabled, the point is visible. -/
def MPInv (s : MovingPoint) : Prop :=
  (s.occlusion_enabled = true → s.occlusion_active = !s.is_visible) ∧
  (s.occlusion_enabled = false → s.is_visible = true)

instance (s : MovingPoint) : Decidable (MPInv s) := by
  unfold MPInv; infer_instance

/-- Inductive strengthening of `MPInv`: additionally, while occlusion is
disabled `occlusion_active` is false.  Every reachable state satisfies it
and it implies `MPInv`. -/
def MPInvStrong (s : MovingPoint) : Prop :=
  MPInv s ∧ (s.occlusion_enabled = false → s.occlusion_active = false)

instance (s : MovingPoint) : Decidable (MPInvStrong s) := by
  unfold MPInvStrong; infer_instance

/-- One scheduled trial as built by
`BlockManager._generate_sequential_trial_sequence` (the dict literal at
block_manager.py:73).  `decoded_params` is the `(task, speed, duration)`
triple already stored in the first three fields, so it is not duplicated. -/
structure Trial where
  task_type : ℕ
  speed : ℚ
  duration : ℤ
  trajectory_index : ℕ
  actual_trajectory_category : String
  trial_in_block : ℕ
  display_order : ℕ
deriving DecidableEq

/-- `BlockConfig` (exp_config.py): name, per-task repeat counts, category. -/
structure BlockConfig where
  name : String
  tasks_distribution : List (ℕ × ℕ)
  trajectories_category : String
deriving DecidableEq

/-- Mutable state of `BlockManager` (block_manager.py).  `block_sequences`
is built in `__init__` with exactly one sequence per block; the cursor pair
starts at `(0, 0)`. -/
structure BlockManager where
  blocks : List BlockConfig
  block_sequences : List (List Trial)
  current_block_index : ℕ
  current_trial_index : ℕ
deriving DecidableEq

/-- `BlockManager.is_experiment_complete`. -/
def BlockManager.is_experiment_complete (s : BlockManager) : Bool :=
  s.blocks.length ≤ s.current_block_index

/-- `BlockManager.get_current_trial`: returns the current trial when both
indices are in range, and `none` (Python: the empty dict fallback)
otherwise. -/
def BlockManager.get_current_trial (s : BlockManager) : Option Trial :=
  if s.current_block_index < s.block_sequences.length ∧
     s.current_trial_index < (s.block_sequences.getD s.current_block_index []).length then
    (s.block_sequences.getD s.current_block_index []).get? s.current_trial_index
  else none

/-- `BlockManager.get_current_block`. -/
def BlockManager.get_current_block (s : BlockManager) : Option BlockConfig :=
  if s.current_block_index < s.blocks.length then s.blocks.get? s.current_block_index
  else none

/-- `BlockManager.move_to_next_trial`.  Python first increments
`current_trial_index` and only then evaluates
`len(self.block_sequences[self.current_block_index])`; when
`current_block_index` is already past the end (experiment complete) this
raises `IndexError`.  The raise is modelled by the returned `none`, paired
with the state as mutated up to that point. -/
def BlockManager.move_to_next_trial (s : BlockManager) : BlockManager × Option Bool :=
  let s1 := { s with current_trial_index := s.current_trial_index + 1 }
  match s1.block_sequences.get? s1.current_block_index with
  | none => (s1, none)
  | some seq =>
    if s1.current_trial_index ≥ seq.length then
      ({ s1 with current_trial_index := 0,
                 current_block_index := s1.current_block_index + 1 },
       some true)
    else (s1, some false)

/-- The timestamp/flag fields of `DataCollector.current_trial_data`
(data_collector.py:19-62).  The purely descriptive payload fields
(trajectory type, condition label, assigned parameters, sub-task result
dicts) are carried unchanged by every operation modelled here and are
omitted.  All timestamp fields start as Python `None`. -/
structure TrialData where
  trial_number : ℕ
  start_time : ℤ
  movement_start_time : Option ℤ
  stimulus_start_time : Option ℤ
  movement_end_time : Option ℤ
  occlusion_start_time : Option ℤ
  space_press_time : Option ℤ
  reaction_time : Option ℤ
  actual_response_time_movement : Option ℤ
  actual_response_time_stimulus : Option ℤ
  stopped_by_user : Bool
  completed_normally : Bool
deriving DecidableEq

/-- `DataCollector` state (data_collector.py). -/
structure DataCollector where
  participant_id : String
  block_number : ℤ
  current_trial_data : TrialData
  all_trials_data : List TrialData
  trial_number : ℕ
deriving DecidableEq

/-- `DataCollector.__init__`: before the first `start_new_trial` the current
trial dict is empty; assigning into it is always legal in Python, which the
all-`none` record models. -/
def DataCollector.init (participantId : String) (blockNumber : ℤ) : DataCollector :=
  { participant_id := participantId
    block_number := blockNumber
    current_trial_data :=
      { trial_number := 0, start_time := 0, movement_start_time := none,
        stimulus_start_time := none, movement_end_time := none,
        occlusion_start_time := none, space_press_time := none,
        reaction_time := none, actual_response_time_movement := none,
        actual_response_time_stimulus := none, stopped_by_user := false,
        completed_normally := false }
    all_trials_data := []
    trial_number := 0 }

/-- `DataCollector.start_new_trial` restricted to the modelled fields:
increments the trial counter and resets every timestamp/flag field. -/
def DataCollector.start_new_trial (s : DataCollector) (now : ℤ) : DataCollector :=
  { s with
    trial_number := s.trial_number + 1
    current_trial_data :=
      { trial_number := s.trial_number + 1, start_time := now,
        movement_start_time := none, stimulus_start_time := none,
        movement_end_time := none, occlusion_start_time := none,
        space_press_time := none, reaction_time := none,
        actual_response_time_movement := none,
        actual_response_time_stimulus := none,
        stopped_by_user := false, completed_normally := false } }

/-- `DataCollector.record_movement_start`. -/
def DataCollector.record_movement_start (s : DataCollector) (now : ℤ) : DataCollector :=
  { s with current_trial_data :=
      { s.current_trial_data with movement_start_time := some now } }

/-- `DataCollector.record_movement_end` (data_collector.py:72-74): a single
unconditional assignment of the current tick. -/
def DataCollector.record_movement_end (s : DataCollector) (now : ℤ) : DataCollector :=
  { s with current_trial_data :=
      { s.current_trial_data with movement_end_time := some now } }

/-- The states of `ReproductionTask` are Python strings; keyboard events are
reduced to the only distinction the handler makes. -/
inductive RTEvent where
  | spaceDown
  | other
deriving DecidableEq

/-- State of `ReproductionTask` (reproduction_task.py); screen-geometry and
drawing fields are omitted.  `start_delays` is the constant `[200, 400]`. -/
structure ReproductionTask where
  is_active : Bool
  state : String
  state_start_time : ℤ
  target_duration : ℤ
  response_time : ℤ
  space_pressed : Bool
  start_delays : List ℤ
  start_delay : ℤ
  in_start_delay : Bool
  delay_start_time : ℤ
deriving DecidableEq

/-- `ReproductionTask.__init__`. -/
def ReproductionTask.init : ReproductionTask :=
  { is_active := false, state := "inactive", state_start_time := 0,
    target_duration := 0, response_time := 0, space_pressed := false,
    start_delays := [200, 400], start_delay := 0, in_start_delay := false,
    delay_start_time := 0 }

/-- `ReproductionTask.activate`. -/
def ReproductionTask.activate (s : ReproductionTask) (targetDuration : ℤ)
    (now : ℤ) : ReproductionTask :=
  { s with is_active := true, state := "first_cross_waiting",
           state_start_time := now, target_duration := targetDuration,
           space_pressed := false, response_time := 0,
           in_start_delay := false, start_delay := 0 }

/-- `ReproductionTask.handle_event`.  `rand` is the value
`random.choice(self.start_delays)` would produce (injected randomness); the
returned flag is the handler's "task finished" result. -/
def ReproductionTask.handle_event (s : ReproductionTask) (ev : RTEvent)
    (now : ℤ) (rand : ℤ) : ReproductionTask × Bool :=
  if !s.is_active then (s, false)
  else
    match ev with
    | RTEvent.other => (s, false)
    | RTEvent.spaceDown =>
      if s.state = "first_cross_waiting" then
        ({ s with start_delay := rand, delay_start_time := now,
                  state := "in_start_delay" }, false)
      else if s.state = "second_cross_waiting" then
        ({ s with state := "response_waiting", state_start_time := now }, false)
      else if s.state = "response_waiting" ∧ !s.space_pressed then
        ({ s with space_pressed := true,
                  response_time := now - s.state_start_time }, true)
      else (s, false)

/-- `ReproductionTask.update`: the automatic (time-driven) transitions. -/
def ReproductionTask.updateAuto (s : ReproductionTask) (now : ℤ) : ReproductionTask :=
  if !s.is_active then s
  else if s.state = "in_start_delay" then
    if now - s.delay_start_time ≥ s.start_delay then
      { s with state := "first_circle_auto", state_start_time := now,
               in_start_delay := false }
    else s
  else if s.state = "first_circle_auto" then
    if now - s.state_start_time ≥ s.target_duration then
      { s with state := "second_cross_waiting", state_start_time := now }
    else s
  else s

/-- The result record of `ReproductionTask.get_results`. -/
structure RTResults where
  target_duration : ℤ
  reproduced_duration : ℤ
  reproduction_error : ℤ
  reproduction_error_abs : ℤ
  reproduction_ratio : ℚ
  start_delay : ℤ
deriving DecidableEq

/-- `ReproductionTask.get_results`. -/
def ReproductionTask.get_results (s : ReproductionTask) : RTResults :=
  { target_duration := s.target_duration
    reproduced_duration := s.response_time
    reproduction_error := s.response_time - s.target_duration
    reproduction_error_abs := |s.response_time - s.target_duration|
    reproduction_ratio :=
      if s.target_duration > 0 then (s.response_time : ℚ) / (s.target_duration : ℚ)
      else 0
    start_delay := s.start_delay }

/-- Decoded trial parameters (`ExperimentConfig.decode_category` result). -/
structure DecodedParams where
  task_index : ℕ
  speed : ℚ
  duration : ℤ
  decoded_category : String
deriving DecidableEq

/-- `ExperimentConfig._get_default_parameters`. -/
def getDefaultParameters : DecodedParams :=
  { task_index := 0, speed := 899/100, duration := 500, decoded_category := "C1S1D1" }

/-- `ExperimentConfig.decode_category`: the 6-character category code is
read at (0-based) positions 1, 3, 5; after the length check no statement in
the `try` block can raise, so the `except` branch is dead and the function
is total. -/
def decode_category (category : String) : DecodedParams :=
  if category.length ≠ 6 then getDefaultParameters
  else
    let cs := category.toList
    let taskType := cs.getD 1 ' '
    let speedType := cs.getD 3 ' '
    let durationType := cs.getD 5 ' '
    let taskIndex : ℕ :=
      if taskType = '1' then 0
      else if taskType = '2' then 1
      else if taskType = '3' then 2
      else 0
    let speed : ℚ :=
      if speedType = '1' then 899/100
      else if speedType = '2' then 18
      else 899/100
    let duration : ℤ :=
      if durationType = '1' then 500
      else if durationType = '2' then 1600
      else if durationType = '3' then 2900
      else 500
    { task_index := taskIndex, speed := speed, duration := duration,
      decoded_category :=
        String.mk ['C', taskType, 'S', speedType, 'D', durationType] }

/-- Restatement of claim C8's mapping in the specification's own words, for
comparison with `decode_category`: character 2 selects the task kind
(1 → occlusion/task 0, 2 → estimation/task 1, 3 → reproduction/task 2),
character 4 one of exactly two speeds (1 → 8.99, 2 → 18.00), character 6 one
of exactly three durations (1 → 500, 2 → 1600, 3 → 2900); wrong-length codes
and unrecognized characters fall back to the documented default
(task 0, speed 8.99, duration 500). -/
def decodeCategorySpec (category : String) : ℕ × ℚ × ℤ :=
  if category.length ≠ 6 then (0, 899/100, 500)
  else
    let c2 := category.toList.getD 1 ' '
    let c4 := category.toList.getD 3 ' '
    let c6 := category.toList.getD 5 ' '
    ( if c2 = '1' then 0 else if c2 = '2' then 1 else if c2 = '3' then 2 else 0,
      if c4 = '1' then 899/100 else if c4 = '2' then 18 else 899/100,
      if c6 = '1' then 500 else if c6 = '2' then 1600 else if c6 = '3' then 2900
      else 500 )

/-- A Python dict observed only through `"x" in d`, `"y" in d`, `d["x"]`,
`d["y"]` with numeric values. -/
abbrev PointDict := List (String × ℚ)

/-- One element of a stored point list: a dict, or anything else
(skipped with a warning by the loader). -/
inductive PointVal where
  | pdict (d : PointDict)
  | pother
deriving DecidableEq

/-- One stored trajectory (`trajectories[index]`): a list of points, a
single point dict, or an unrecognized value. -/
inductive PointsData where
  | plist (ps : List PointVal)
  | pdict (d : PointDict)
  | pother
deriving DecidableEq

/-- The value found at `trajectories_data[block][category]`: a list of
stored trajectories, or any non-list value. -/
inductive CatVal where
  | vlist (ts : List PointsData)
  | vnonlist
deriving DecidableEq

/-- The trajectory library: block name → category → value. -/
abbrev TrajLibrary := List (String × List (String × CatVal))

/-- Python list indexing semantics for `int` indices: negative indices count
from the end; out-of-range access raises (`none`). -/
def pyGet {α : Type} (xs : List α) (i : ℤ) : Option α :=
  let j := if i < 0 then (xs.length : ℤ) + i else i
  if 0 ≤ j then xs.get? j.toNat else none

/-- Point extraction for the list format (trajectory.py:97-103): keep the
entries that are dicts containing both an `"x"` and a `"y"` key. -/
def extractPoints (ps : List PointVal) : List Point :=
  ps.filterMap fun pv =>
    match pv with
    | PointVal.pdict d =>
      match d.lookup "x", d.lookup "y" with
      | some x, some y => some (x, y)
      | _, _ => none
    | PointVal.pother => none

/-- `TrajectoryManager.load_trajectory`.  The whole body is wrapped in
`try/except Exception`, whose only reachable raise (with numeric data) is
the negative-out-of-range list access, and the handler returns
`Trajectory([])`; the embedding is therefore total, with every failure
branch producing the empty trajectory exactly as the source does. -/
def load_trajectory (lib : TrajLibrary) (blockName category : String)
    (index : ℤ) : Trajectory :=
  match (lib.lookup blockName).bind (fun cats => cats.lookup category) with
  | none => ⟨[]⟩
  | some CatVal.vnonlist => ⟨[]⟩
  | some (CatVal.vlist ts) =>
    if ts.isEmpty then ⟨[]⟩
    else if index ≥ (ts.length : ℤ) then ⟨[]⟩
    else
      match pyGet ts index with
      | none => ⟨[]⟩
      | some (PointsData.plist ps) => ⟨extractPoints ps⟩
      | some (PointsData.pdict d) =>
        match d.lookup "x", d.lookup "y" with
        | some x, some y => ⟨[(x, y)]⟩
        | _, _ => ⟨[]⟩
      | some PointsData.pother => ⟨[]⟩

/-! Helper lemmas. -/

theorem ratSqrt_nonneg (q : ℚ) : 0 ≤ ratSqrt q := by
  unfold ratSqrt
  split
  · exact le_refl 0
  · rw [Rat.mkRat_eq_divInt, Rat.divInt_eq_div]
    positivity

theorem segmentLength_nonneg (p1 p2 : Point) : 0 ≤ segmentLength p1 p2 :=
  ratSqrt_nonneg _

theorem totalLengthAux_nonneg (ps : List Point) : 0 ≤ totalLengthAux ps := by
  induction ps with
  | nil => exact le_refl 0
  | cons p rest ih =>
    cases rest with
    | nil => exact le_refl 0
    | cons q rest2 =>
      have h1 := segmentLength_nonneg p q
      unfold totalLengthAux
      positivity

theorem total_length_nonneg (t : Trajectory) : 0 ≤ t.total_length :=
  totalLengthAux_nonneg t.points

theorem totalLengthAux_short (ps : List Point) (h : ps.length < 2) :
    totalLengthAux ps = 0 := by
  match ps with
  | [] => rfl
  | [p] => rfl
  | p :: q :: rest => simp at h; omega

/-! Claim theorems. -/

/-- C6: for a trajectory with at least 2 points and speed `s > 0`,
`calculate_duration s` is `(total_length / s) / 60 * 1000` ms; for `s ≤ 0`
it is 0; it is monotonically non-increasing in the speed; and (amended) for
`s > 0` it is 0 exactly when the total length is 0 — which covers every
trajectory with fewer than 2 points, but also degenerate longer ones. -/
theorem C6_duration_properties (t : Trajectory) (s s1 s2 : ℚ) :
    (0 < s → 2 ≤ t.points.length →
      t.calculate_duration s = t.total_length / s / 60 * 1000) ∧
    (s ≤ 0 → t.calculate_duration s = 0) ∧
    (0 < s1 → s1 ≤ s2 → t.calculate_duration s2 ≤ t.calculate_duration s1) ∧
    (0 < s → (t.calculate_duration s = 0 ↔ t.total_length = 0)) := by
  refine ⟨?_, ?_, ?_, ?_⟩
  · intro hs hlen
    unfold Trajectory.calculate_duration
    rw [if_neg]
    push_neg
    exact ⟨hs, hlen⟩
  · intro hs
    unfold Trajectory.calculate_duration
    rw [if_pos (Or.inl hs)]
  · intro h1 h12
    have h2 : 0 < s2 := lt_of_lt_of_le h1 h12
    unfold Trajectory.calculate_duration
    by_cases hlen : t.points.length < 2
    · rw [if_pos (Or.inr hlen), if_pos (Or.inr hlen)]
    · rw [if_neg (by push_neg; exact ⟨h2, not_lt.1 hlen⟩),
        if_neg (by push_neg; exact ⟨h1, not_lt.1 hlen⟩)]
      have hL : 0 ≤ t.total_length := total_length_nonneg t
      gcongr
  · intro hs
    unfold Trajectory.calculate_duration
    by_cases hlen : t.points.length < 2
    · rw [if_pos (Or.inr hlen)]
      simp only [true_iff]
      exact totalLengthAux_short t.points hlen
    · rw [if_neg (by push_neg; exact ⟨hs, not_lt.1 hlen⟩)]
      constructor
      · intro h
        have : t.total_length / s / 60 = 0 := by
          have := mul_eq_zero.1 h
          rcases this with h' | h'
          · exact h'
          · norm_num at h'
        have : t.total_length / s = 0 := by
          rcases div_eq_zero_iff.1 this with h' | h'
          · exact h'
          · norm_num at h'
        rcases div_eq_zero_iff.1 this with h' | h'
        · exact h'
        · exact absurd h' (ne_of_gt hs)
      · intro h
        rw [h]
        norm_num

/-- C6 witness: monotonicity instantiated on the segment from (0,0) to
(3,0) with speeds 1 ≤ 2. -/
theorem C6_duration_witness :
    Trajectory.calculate_duration ⟨[((0 : ℚ), (0 : ℚ)), (3, 0)]⟩ 2 ≤
      Trajectory.calculate_duration ⟨[((0 : ℚ), (0 : ℚ)), (3, 0)]⟩ 1 :=
  (C6_duration_properties ⟨[((0 : ℚ), (0 : ℚ)), (3, 0)]⟩ 1 1 2).2.2.1
    (by norm_num) (by norm_num)

/-- C6 counterexample to the claim as stated: the two-point trajectory
whose points coincide has ≥ 2 points, yet its duration at speed 1 > 0 is 0,
so duration 0 does not only happen for trajectories with fewer than 2
points. -/
theorem C6_counterexample :
    (Trajectory.mk [((0 : ℚ), (0 : ℚ)), (0, 0)]).points.length = 2 ∧
    ((0 : ℚ) < 1) ∧
    (Trajectory.mk [((0 : ℚ), (0 : ℚ)), (0, 0)]).calculate_duration 1 = 0 := by
  refine ⟨rfl, by norm_num, ?_⟩
  norm_num [Trajectory.calculate_duration, Trajectory.total_length,
    totalLengthAux, segmentLength, ratSqrt]

/-- C8: `decode_category` agrees with the specification's documented
character-by-character mapping on every input string, and in particular is
total (never raises) with the documented defaults for wrong-length codes
and unrecognized characters. -/
theorem C8_decode_category_correct (category : String) :
    ((decode_category category).task_index, (decode_category category).speed,
      (decode_category category).duration) = decodeCategorySpec category := by
  unfold decode_category decodeCategorySpec
  by_cases h : category.length = 6
  · simp [h]
  · simp [h, getDefaultParameters]

/-- C1 counterexample to the claim as stated: on the two-point trajectory
from (0,0) to (1,0) with the default speed 5 px/frame, `reset` followed by a
single `update` (with `dt = 0`) does set `is_finished` — the claim's
"for every trajectory" fails for any trajectory shorter than one frame's
travel. -/
theorem C1_counterexample :
    (((MovingPoint.init ⟨[((0 : ℚ), (0 : ℚ)), (1, 0)]⟩ 5 "half" none 500).reset
        ⟨[((0 : ℚ), (0 : ℚ)), (1, 0)]⟩).update 0 0).1.is_finished = true := by
  norm_num [MovingPoint.init, MovingPoint.reset, MovingPoint.setupAutomaticOcclusion,
    findSegmentAndProgress, findSegAux, Trajectory.total_length, totalLengthAux,
    segmentLength, ratSqrt, MovingPoint.update, MovingPoint.updateVisibility,
    isPositionInRange, MovingPoint.finish_movement, interpolatePoints,
    Rat.mkRat_eq_divInt, Rat.divInt_eq_div, (by decide : isqrt 1 = 1),
    (by decide : "half" ≠ "timed")]

/-- C3 counterexample to the claim as stated: after `record_movement_end`
has stored tick 100, a second call at tick 200 replaces the stored value —
it does not keep the first value. -/
theorem C3_counterexample :
    (((DataCollector.init "p" 1).record_movement_end 100).current_trial_data.movement_end_time
        = some 100) ∧
    ((((DataCollector.init "p" 1).record_movement_end 100).record_movement_end 200).current_trial_data.movement_end_time
        = some 200) ∧
    ((((DataCollector.init "p" 1).record_movement_end 100).record_movement_end 200).current_trial_data.movement_end_time
        ≠ (((DataCollector.init "p" 1)).record_movement_end 100).current_trial_data.movement_end_time) := by
  refine ⟨rfl, rfl, ?_⟩
  decide

/-- C3 (amended): `record_movement_end` unconditionally overwrites
`movement_end_time` with the tick of the call (last-write-wins); since the
tick clock is monotone, a repeated call therefore never moves the stored
time backward, but it does replace the first value rather than keeping it. -/
theorem C3_record_movement_end (s : DataCollector) (t1 now : ℤ) :
    ((s.record_movement_end now).current_trial_data.movement_end_time = some now) ∧
    (s.current_trial_data.movement_end_time = some t1 → t1 ≤ now →
      ∃ t2, (s.record_movement_end now).current_trial_data.movement_end_time = some t2 ∧
        t1 ≤ t2) :=
  ⟨rfl, fun _ h2 => ⟨now, rfl, h2⟩⟩

/-- C3 witness: the amended theorem applied after a first call at tick 100
and a monotone second call at tick 200. -/
theorem C3_record_movement_end_witness :
    ∃ t2, (((DataCollector.init "p" 1).record_movement_end 100).record_movement_end
        200).current_trial_data.movement_end_time = some t2 ∧ (100 : ℤ) ≤ t2 :=
  (C3_record_movement_end ((DataCollector.init "p" 1).record_movement_end 100) 100 200).2
    rfl (by norm_num)

/-- C2 counterexample to the claim as stated: on a completed one-block
manager (cursor already past the last block), `move_to_next_trial` is not a
no-op — it increments the trial cursor and then performs the out-of-range
access `block_sequences[current_block_index]` (Python `IndexError`,
modelled by the `none` result). -/
theorem C2_counterexample :
    (BlockManager.is_experiment_complete
        ⟨[⟨"B", [], "sequential"⟩], [[]], 1, 0⟩ = true) ∧
    ((BlockManager.move_to_next_trial
        ⟨[⟨"B", [], "sequential"⟩], [[]], 1, 0⟩).2 = none) ∧
    ((BlockManager.move_to_next_trial
        ⟨[⟨"B", [], "sequential"⟩], [[]], 1, 0⟩).1.current_trial_index = 1) := by
  decide

/-- C2 (amended): while the experiment is not complete, advancing past the
last trial of a block resets the trial cursor to 0, increments the block
cursor and reports block completion; doing so on the last block marks the
experiment complete; the reading accessor `get_current_trial` guards its
index ranges (it returns a trial exactly when both cursors are in range and
an empty fallback otherwise).  However `move_to_next_trial` invoked when the
experiment is already complete is not a no-op: it increments the trial
cursor and then raises an out-of-bounds access (the `none` result). -/
theorem C2_block_manager_advance (s : BlockManager) (seq : List Trial) :
    (s.block_sequences.get? s.current_block_index = some seq →
      ((seq.length ≤ s.current_trial_index + 1 →
        ((s.move_to_next_trial).1.current_trial_index = 0 ∧
         (s.move_to_next_trial).1.current_block_index = s.current_block_index + 1 ∧
         (s.move_to_next_trial).2 = some true)) ∧
       (s.current_trial_index + 1 < seq.length →
        ((s.move_to_next_trial).1.current_trial_index = s.current_trial_index + 1 ∧
         (s.move_to_next_trial).1.current_block_index = s.current_block_index ∧
         (s.move_to_next_trial).2 = some false)) ∧
       (seq.length ≤ s.current_trial_index + 1 →
        s.current_block_index + 1 = s.blocks.length →
        (s.move_to_next_trial).1.is_experiment_complete = true))) ∧
    (s.is_experiment_complete = true →
      s.block_sequences.length = s.blocks.length →
      (s.move_to_next_trial).2 = none) ∧
    ((s.get_current_trial).isSome = true ↔
      (s.current_block_index < s.block_sequences.length ∧
       s.current_trial_index < (s.block_sequences.getD s.current_block_index []).length)) := by
  refine ⟨?_, ?_, ?_⟩
  · intro hseq
    refine ⟨?_, ?_, ?_⟩
    · intro hlast
      unfold BlockManager.move_to_next_trial
      simp only [hseq]
      rw [if_pos (by omega)]
      exact ⟨rfl, rfl, rfl⟩
    · intro hmid
      unfold BlockManager.move_to_next_trial
      simp only [hseq]
      rw [if_neg (by omega)]
      exact ⟨rfl, rfl, rfl⟩
    · intro hlast hblocks
      unfold BlockManager.move_to_next_trial
      simp only [hseq]
      rw [if_pos (by omega)]
      simp [BlockManager.is_experiment_complete]
      omega
  · intro hdone hlen
    have hnone : s.block_sequences.get? s.current_block_index = none := by
      apply List.get?_eq_none.2
      unfold BlockManager.is_experiment_complete at hdone
      simp only [decide_eq_true_eq] at hdone
      omega
    unfold BlockManager.move_to_next_trial
    simp only [hnone]
  · unfold BlockManager.get_current_trial
    split_ifs with h
    · rcases h with ⟨h1, h2⟩
      constructor
      · intro _
        exact ⟨h1, h2⟩
      · intro _
        rw [(List.get?_eq_get (by exact h2) :
          (s.block_sequences.getD s.current_block_index []).get? s.current_trial_index = _)]
        rfl
    · simp only [Option.isSome_none, Bool.false_eq_true, false_iff]
      exact h

/-- C2 witness: the amended theorem applied to a one-block manager standing
on the last (empty) sequence: advancing completes the block and marks the
experiment complete. -/
theorem C2_block_manager_advance_witness :
    (BlockManager.move_to_next_trial ⟨[⟨"B", [], "sequential"⟩], [[]], 0, 0⟩).1.is_experiment_complete
      = true :=
  (((C2_block_manager_advance ⟨[⟨"B", [], "sequential"⟩], [[]], 0, 0⟩ []).1 rfl).2.2)
    (by norm_num) rfl

theorem pyGet_nil_none {α : Type} (i : ℤ) : pyGet ([] : List α) i = none := by
  unfold pyGet
  simp only [List.length_nil]
  split_ifs <;> simp

theorem pyGet_ge_none {α : Type} (xs : List α) (i : ℤ)
    (h : (xs.length : ℤ) ≤ i) : pyGet xs i = none := by
  unfold pyGet
  rw [if_neg (by omega : ¬ i < 0)]
  simp only
  rw [if_pos (by omega : (0 : ℤ) ≤ i)]
  exact List.get?_eq_none.2 (by omega)

theorem pyGet_neg_out_none {α : Type} (xs : List α) (i : ℤ)
    (h : i < -(xs.length : ℤ)) : pyGet xs i = none := by
  unfold pyGet
  have hlen : (0 : ℤ) ≤ (xs.length : ℤ) := Int.ofNat_nonneg _
  rw [if_pos (by omega : i < 0)]
  simp only
  rw [if_neg (by omega : ¬ (0 : ℤ) ≤ (xs.length : ℤ) + i)]

/-- C9: `load_trajectory` always returns a `Trajectory` (the embedding is a
total function precisely because every raising path of the Python body is
caught by its `except` handler): a missing block or category, a
Python-out-of-range index (`index ≥ len` or `index < -len`), and an
unrecognized point-data format all yield the explicit empty trajectory. -/
theorem C9_load_trajectory_total (lib : TrajLibrary) (b c : String) (i : ℤ) :
    ((lib.lookup b).bind (fun cats => cats.lookup c) = none →
      (load_trajectory lib b c i).points = []) ∧
    ((lib.lookup b).bind (fun cats => cats.lookup c) = some CatVal.vnonlist →
      (load_trajectory lib b c i).points = []) ∧
    (∀ ts, (lib.lookup b).bind (fun cats => cats.lookup c) = some (CatVal.vlist ts) →
      (((ts.length : ℤ) ≤ i ∨ i < -(ts.length : ℤ)) →
        (load_trajectory lib b c i).points = []) ∧
      (pyGet ts i = some PointsData.pother →
        (load_trajectory lib b c i).points = [])) := by
  refine ⟨?_, ?_, ?_⟩
  · intro h
    unfold load_trajectory
    rw [h]
  · intro h
    unfold load_trajectory
    rw [h]
  · intro ts h
    constructor
    · intro hrange
      unfold load_trajectory
      rw [h]
      by_cases he : ts.isEmpty
      · simp [he]
      · rcases hrange with hge | hneg
        · simp [he, if_pos hge]
        · have hlen : (0 : ℤ) ≤ (ts.length : ℤ) := Int.ofNat_nonneg _
          simp only [he, Bool.false_eq_true, if_false]
          rw [if_neg (by omega : ¬ i ≥ (ts.length : ℤ))]
          rw [pyGet_neg_out_none ts i hneg]
    · intro hp
      unfold load_trajectory
      rw [h]
      have he : ts.isEmpty = false := by
        cases ts with
        | nil => rw [pyGet_nil_none i] at hp; exact Option.noConfusion hp
        | cons a l => rfl
      have hlt : ¬ i ≥ (ts.length : ℤ) := by
        intro hge
        rw [pyGet_ge_none ts i hge] at hp
        exact Option.noConfusion hp
      simp only [he, Bool.false_eq_true, if_false]
      rw [if_neg hlt, hp]

/-- C9 witness: the empty library yields the empty trajectory. -/
theorem C9_load_trajectory_total_witness :
    (load_trajectory [] "block_1" "C1S1D1" 0).points = [] :=
  (C9_load_trajectory_total [] "block_1" "C1S1D1" 0).1 rfl

/-- C7: pressing space in `second_cross_waiting` enters `response_waiting`
and stamps its entry time; a confirming press `d` ms later measures
`reproduced_duration = d` — elapsed time from entering `response_waiting`,
never from trial start — and `get_results` reports
`error = reproduced − target`, `abs_error = |error|`,
`ratio = reproduced / target` when `target > 0` (else 0); in particular a
response exactly `target_duration = 1000` ms after entering
`response_waiting` gives error 0 and ratio 1. -/
theorem C7_reproduction_results (s : ReproductionTask) (t1 d r1 r2 : ℤ)
    (hactive : s.is_active = true)
    (hstate : s.state = "second_cross_waiting")
    (hsp : s.space_pressed = false) :
    ((s.handle_event RTEvent.spaceDown t1 r1).1.state = "response_waiting") ∧
    ((s.handle_event RTEvent.spaceDown t1 r1).1.state_start_time = t1) ∧
    (((s.handle_event RTEvent.spaceDown t1 r1).1.handle_event RTEvent.spaceDown
        (t1 + d) r2).2 = true) ∧
    ((((s.handle_event RTEvent.spaceDown t1 r1).1.handle_event RTEvent.spaceDown
        (t1 + d) r2).1.get_results).reproduced_duration = d) ∧
    ((((s.handle_event RTEvent.spaceDown t1 r1).1.handle_event RTEvent.spaceDown
        (t1 + d) r2).1.get_results).target_duration = s.target_duration) ∧
    ((((s.handle_event RTEvent.spaceDown t1 r1).1.handle_event RTEvent.spaceDown
        (t1 + d) r2).1.get_results).reproduction_error = d - s.target_duration) ∧
    ((((s.handle_event RTEvent.spaceDown t1 r1).1.handle_event RTEvent.spaceDown
        (t1 + d) r2).1.get_results).reproduction_error_abs = |d - s.target_duration|) ∧
    ((((s.handle_event RTEvent.spaceDown t1 r1).1.handle_event RTEvent.spaceDown
        (t1 + d) r2).1.get_results).reproduction_ratio =
      if s.target_duration > 0 then (d : ℚ) / (s.target_duration : ℚ) else 0) ∧
    (s.target_duration = 1000 → d = 1000 →
      ((((s.handle_event RTEvent.spaceDown t1 r1).1.handle_event RTEvent.spaceDown
          (t1 + d) r2).1.get_results).reproduction_error = 0 ∧
       (((s.handle_event RTEvent.spaceDown t1 r1).1.handle_event RTEvent.spaceDown
          (t1 + d) r2).1.get_results).reproduction_ratio = 1)) := by
  have h1 : s.handle_event RTEvent.spaceDown t1 r1 =
      ({ s with state := "response_waiting", state_start_time := t1 }, false) := by
    unfold ReproductionTask.handle_event
    simp [hactive, hstate, (by decide : "second_cross_waiting" ≠ "first_cross_waiting")]
  have h2 : ReproductionTask.handle_event
        { s with state := "response_waiting", state_start_time := t1 }
        RTEvent.spaceDown (t1 + d) r2 =
      ({ s with
          state := "response_waiting", state_start_time := t1,
          space_pressed := true, response_time := t1 + d - t1 }, true) := by
    unfold ReproductionTask.handle_event
    simp [hactive, hsp,
      (by decide : "response_waiting" ≠ "first_cross_waiting"),
      (by decide : "response_waiting" ≠ "second_cross_waiting")]
  have hd : t1 + d - t1 = d := by omega
  rw [h1]
  simp only [h2, hd, ReproductionTask.get_results, true_and, and_true]
  intro ht hdv
  rw [ht, hdv]
  norm_num

/-- C7 witness: a concrete active sub-machine in `second_cross_waiting` with
target 1000 ms, confirmed exactly 1000 ms after entering `response_waiting`. -/
theorem C7_reproduction_results_witness :
    (((ReproductionTask.handle_event
          ⟨true, "second_cross_waiting", 0, 1000, 0, false, [200, 400], 200, false, 0⟩
          RTEvent.spaceDown 500 200).1.handle_event RTEvent.spaceDown
        (500 + 1000) 200).1.get_results).reproduction_error = 0 ∧
    (((ReproductionTask.handle_event
          ⟨true, "second_cross_waiting", 0, 1000, 0, false, [200, 400], 200, false, 0⟩
          RTEvent.spaceDown 500 200).1.handle_event RTEvent.spaceDown
        (500 + 1000) 200).1.get_results).reproduction_ratio = 1 :=
  (C7_reproduction_results
      ⟨true, "second_cross_waiting", 0, 1000, 0, false, [200, 400], 200, false, 0⟩
      500 1000 200 200 rfl rfl rfl).2.2.2.2.2.2.2.2 rfl rfl

/-- C4: `stop_by_user` changes nothing unless the point is moving and not
finished (in particular a second stop while `is_finished` is a no-op); when
it applies it clears `is_moving`, sets `is_finished` and `stopped_by_user`,
leaves `occlusion_active` untouched, and the point stays hidden exactly when
occlusion was active at the moment of the call. -/
theorem C4_stop_by_user_spec (s : MovingPoint) (now : ℤ) :
    (¬(s.is_moving = true ∧ s.is_finished = false) → s.stop_by_user now = s) ∧
    (s.is_finished = true → s.stop_by_user now = s) ∧
    (s.is_moving = true → s.is_finished = false →
      ((s.stop_by_user now).is_finished = true ∧
       (s.stop_by_user now).is_moving = false ∧
       (s.stop_by_user now).stopped_by_user = true ∧
       (s.stop_by_user now).occlusion_active = s.occlusion_active ∧
       (s.stop_by_user now).is_visible = !s.occlusion_active)) := by
  unfold MovingPoint.stop_by_user
  refine ⟨?_, ?_, ?_⟩
  · intro h
    rw [if_neg (by simpa using h)]
  · intro hf
    rw [if_neg (by simp [hf])]
  · intro hm hf
    rw [if_pos (by simp [hm, hf])]
    cases ha : s.occlusion_active <;> simp [ha]

/-- C4 witness: stopping a moving, unfinished point during active occlusion
sets the finished/stopped flags and leaves the point hidden. -/
theorem C4_stop_by_user_spec_witness :
    ((MovingPoint.stop_by_user
        ⟨⟨[]⟩, 5, 0, 0, (0, 0), true, false, 0, 900, false, true, "timed", [],
          0, 0, 0, 1, false, 500, some 0, true, true⟩ 7).is_finished = true) ∧
    ((MovingPoint.stop_by_user
        ⟨⟨[]⟩, 5, 0, 0, (0, 0), true, false, 0, 900, false, true, "timed", [],
          0, 0, 0, 1, false, 500, some 0, true, true⟩ 7).is_visible = false) := by
  have h := (C4_stop_by_user_spec
      ⟨⟨[]⟩, 5, 0, 0, (0, 0), true, false, 0, 900, false, true, "timed", [],
        0, 0, 0, 1, false, 500, some 0, true, true⟩ 7).2.2 rfl rfl
  exact ⟨h.1, by simpa using h.2.2.2.2⟩

theorem uv_trajectory (s : MovingPoint) (now : ℤ) :
    (s.updateVisibility now).trajectory = s.trajectory := by
  unfold MovingPoint.updateVisibility
  rcases hm : s.movement_start_time with _ | t0 <;> simp only [hm] <;>
    split_ifs <;> rfl

theorem uv_speed (s : MovingPoint) (now : ℤ) :
    (s.updateVisibility now).speed = s.speed := by
  unfold MovingPoint.updateVisibility
  rcases hm : s.movement_start_time with _ | t0 <;> simp only [hm] <;>
    split_ifs <;> rfl

theorem uv_current_segment (s : MovingPoint) (now : ℤ) :
    (s.updateVisibility now).current_segment = s.current_segment := by
  unfold MovingPoint.updateVisibility
  rcases hm : s.movement_start_time with _ | t0 <;> simp only [hm] <;>
    split_ifs <;> rfl

theorem uv_progress (s : MovingPoint) (now : ℤ) :
    (s.updateVisibility now).progress = s.progress := by
  unfold MovingPoint.updateVisibility
  rcases hm : s.movement_start_time with _ | t0 <;> simp only [hm] <;>
    split_ifs <;> rfl

theorem uv_is_moving (s : MovingPoint) (now : ℤ) :
    (s.updateVisibility now).is_moving = s.is_moving := by
  unfold MovingPoint.updateVisibility
  rcases hm : s.movement_start_time with _ | t0 <;> simp only [hm] <;>
    split_ifs <;> rfl

theorem uv_current_position (s : MovingPoint) (now : ℤ) :
    (s.updateVisibility now).current_position = s.current_position := by
  unfold MovingPoint.updateVisibility
  rcases hm : s.movement_start_time with _ | t0 <;> simp only [hm] <;>
    split_ifs <;> rfl

theorem uv_is_finished (s : MovingPoint) (now : ℤ) :
    (s.updateVisibility now).is_finished = s.is_finished := by
  unfold MovingPoint.updateVisibility
  rcases hm : s.movement_start_time with _ | t0 <;> simp only [hm] <;>
    split_ifs <;> rfl

theorem reset_fields (s : MovingPoint) (t : Trajectory) :
    (s.reset t).trajectory = t ∧ (s.reset t).speed = s.speed ∧
    (s.reset t).current_segment = 0 ∧ (s.reset t).progress = 0 ∧
    (s.reset t).is_moving = true ∧ (s.reset t).is_finished = false ∧
    (s.reset t).occlusion_enabled = true ∧
    (s.reset t).occlusion_active = false ∧ (s.reset t).is_visible = true := by
  unfold MovingPoint.reset MovingPoint.setupAutomaticOcclusion
  split_ifs <;> simp

/-- C1 (amended): `reset` followed by one `advance`/`update` call — for any
`dt`, in particular 0 — leaves `is_finished` unset, provided the trajectory
has at least two points and the configured speed is positive and smaller
than the first segment's length.  (Without that proviso a single update
already finishes the trajectory: `update` ignores `dt` and advances `speed`
pixels per call.) -/
theorem C1_reset_update_not_finished (s : MovingPoint) (t : Trajectory)
    (p0 p1 : Point) (rest : List Point) (dt : ℚ) (now : ℤ)
    (hpts : t.points = p0 :: p1 :: rest)
    (hsp : 0 < s.speed) (hlt : s.speed < segmentLength p0 p1) :
    ((s.reset t).update dt now).1.is_finished = false := by
  obtain ⟨htr, hspd, hseg, hprog, hmov, hfin, _, _, _⟩ := reset_fields s t
  have hseglen : (0 : ℚ) < segmentLength p0 p1 := lt_trans hsp hlt
  have hdiv : s.speed / segmentLength p0 p1 < 1 := (div_lt_one hseglen).2 hlt
  unfold MovingPoint.update
  rw [if_neg (by simp [hmov, hfin])]
  rw [if_neg (by
    rw [hseg, htr, hpts]
    simp only [List.length_cons]
    push_cast
    omega)]
  simp only [uv_trajectory, uv_speed, uv_current_segment, uv_progress,
    uv_is_finished, htr, hspd, hseg, hprog, hfin, hpts, List.getD]
  simp only [List.get?_cons_zero, Option.getD_some, List.get?_cons_succ]
  rw [if_pos hseglen]
  rw [if_neg (by simp only [zero_add]; exact not_le.2 hdiv)]

/-- C1 witness: speed 2 against a first (and only) segment of length 3. -/
theorem C1_reset_update_not_finished_witness :
    ((MovingPoint.reset
        ⟨⟨[]⟩, 2, 0, 0, (0, 0), true, false, 0, 900, false, true, "half",
          [1/2, 1], 0, 0, 0, 1, true, 500, none, false, false⟩
        ⟨[((0 : ℚ), (0 : ℚ)), (3, 0)]⟩).update 0 0).1.is_finished = false :=
  C1_reset_update_not_finished
    ⟨⟨[]⟩, 2, 0, 0, (0, 0), true, false, 0, 900, false, true, "half",
      [1/2, 1], 0, 0, 0, 1, true, 500, none, false, false⟩
    ⟨[((0 : ℚ), (0 : ℚ)), (3, 0)]⟩ ((0 : ℚ), (0 : ℚ)) ((3 : ℚ), (0 : ℚ)) [] 0 0
    rfl (by norm_num)
    (by norm_num [segmentLength, ratSqrt, Rat.mkRat_eq_divInt, Rat.divInt_eq_div,
      (by decide : isqrt (Int.toNat 9) = 3)])

theorem mpInvStrong_iff (s : MovingPoint) :
    MPInvStrong s ↔
      ((s.occlusion_enabled = true → s.occlusion_active = !s.is_visible) ∧
       (s.occlusion_enabled = false → s.is_visible = true) ∧
       (s.occlusion_enabled = false → s.occlusion_active = false)) := by
  unfold MPInvStrong MPInv
  tauto

theorem uv_invStrong (s : MovingPoint) (now : ℤ) :
    MPInvStrong (s.updateVisibility now) := by
  rw [mpInvStrong_iff]
  unfold MovingPoint.updateVisibility
  rcases hm : s.movement_start_time with _ | t0 <;> simp only [hm] <;>
    split_ifs <;> simp_all

theorem fm_vis_triple (r : MovingPoint) (now : ℤ) :
    ((r.finish_movement now).1.occlusion_enabled = r.occlusion_enabled ∧
     (r.finish_movement now).1.is_visible = r.is_visible ∧
     (r.finish_movement now).1.occlusion_active = r.occlusion_active) ∨
    ((r.finish_movement now).1.is_visible = true ∧
     (r.finish_movement now).1.occlusion_active = false) := by
  unfold MovingPoint.finish_movement
  cases hl : r.trajectory.points.getLast? <;> simp only [hl]
  · left
    simp
  · right
    simp

theorem update_vis_triple (s : MovingPoint) (dt : ℚ) (now : ℤ) :
    ((s.update dt now).1.occlusion_enabled = s.occlusion_enabled ∧
     (s.update dt now).1.is_visible = s.is_visible ∧
     (s.update dt now).1.occlusion_active = s.occlusion_active) ∨
    ((s.update dt now).1.is_visible = true ∧
     (s.update dt now).1.occlusion_active = false) ∨
    ((s.update dt now).1.occlusion_enabled = (s.updateVisibility now).occlusion_enabled ∧
     (s.update dt now).1.is_visible = (s.updateVisibility now).is_visible ∧
     (s.update dt now).1.occlusion_active = (s.updateVisibility now).occlusion_active) := by
  unfold MovingPoint.update
  simp only [uv_trajectory, uv_speed, uv_current_segment, uv_progress,
    uv_is_moving, uv_is_finished]
  split_ifs
  · exact Or.inl ⟨rfl, rfl, rfl⟩
  · exact (fm_vis_triple s now).elim (fun h => Or.inl ⟨h.1, h.2.1, h.2.2⟩)
      (fun h => Or.inr (Or.inl ⟨h.1, h.2⟩))
  · exact (fm_vis_triple _ now).elim
      (fun h => Or.inr (Or.inr ⟨h.1, h.2.1, h.2.2⟩))
      (fun h => Or.inr (Or.inl ⟨h.1, h.2⟩))
  · exact Or.inr (Or.inr ⟨rfl, rfl, rfl⟩)
  · exact Or.inr (Or.inr ⟨rfl, rfl, rfl⟩)
  · exact (fm_vis_triple _ now).elim
      (fun h => Or.inr (Or.inr ⟨h.1, h.2.1, h.2.2⟩))
      (fun h => Or.inr (Or.inl ⟨h.1, h.2⟩))
  · exact Or.inr (Or.inr ⟨rfl, rfl, rfl⟩)
  · exact Or.inr (Or.inr ⟨rfl, rfl, rfl⟩)

/-- C5 counterexample to the claim as stated: the state of a timed-occlusion
point in mid-occlusion (occlusion enabled and active, point hidden —
exactly what `update` produces once the occlusion delay has elapsed)
satisfies the invariant, but `start_movement` called on it clears
`occlusion_active` while leaving the point hidden, breaking the
enabled-side complementarity. -/
theorem C5_counterexample :
    MPInv ⟨⟨[((0 : ℚ), (0 : ℚ)), (100, 0)]⟩, 5, 0, 0, (0, 0), true, false, 0,
        900, false, true, "timed", [], 0, 0, 0, 1, false, 500, some 0, true, true⟩ ∧
    ¬ MPInv (MovingPoint.start_movement
        ⟨⟨[((0 : ℚ), (0 : ℚ)), (100, 0)]⟩, 5, 0, 0, (0, 0), true, false, 0,
          900, false, true, "timed", [], 0, 0, 0, 1, false, 500, some 0, true, true⟩
        1000) := by
  constructor
  · exact ⟨fun _ => rfl, fun h => Bool.noConfusion h⟩
  · intro hinv
    have := hinv.1 rfl
    exact Bool.noConfusion this

/-- C5 (amended): the strengthened visibility invariant — complementarity of
`occlusion_active` and `is_visible` while occlusion is enabled, and
`is_visible` true as well as `occlusion_active` false while it is disabled —
implies the specified invariant and is preserved by `reset`,
`disable_occlusion`, `update`, `stop_by_user` and `finish_movement`
unconditionally, and by `start_movement` whenever occlusion is not active at
the moment of the call (as is the case right after `reset`).
`start_movement` from a mid-occlusion state is the sole exception, per the
counterexample. -/
theorem C5_invariant_preservation (s : MovingPoint) (t : Trajectory) (dt : ℚ)
    (now : ℤ) (hs : MPInvStrong s) :
    MPInv s ∧
    MPInvStrong (s.reset t) ∧
    MPInvStrong (s.disable_occlusion) ∧
    MPInvStrong (s.update dt now).1 ∧
    MPInvStrong (s.stop_by_user now) ∧
    MPInvStrong (s.finish_movement now).1 ∧
    (s.occlusion_active = false → MPInvStrong (s.start_movement now)) := by
  obtain ⟨hInv, hDis⟩ := hs
  obtain ⟨hEn, hVis⟩ := hInv
  refine ⟨⟨hEn, hVis⟩, ?_, ?_, ?_, ?_, ?_, ?_⟩
  · obtain ⟨_, _, _, _, _, _, hoe, hoa, hvi⟩ := reset_fields s t
    rw [mpInvStrong_iff, hoe, hoa, hvi]
    simp
  · unfold MovingPoint.disable_occlusion
    rw [mpInvStrong_iff]
    simp
  · rcases update_vis_triple s dt now with ⟨he, hv, ha⟩ | ⟨hv, ha⟩ | ⟨he, hv, ha⟩
    · rw [mpInvStrong_iff, he, hv, ha]
      exact ⟨hEn, hVis, hDis⟩
    · rw [mpInvStrong_iff, hv, ha]
      simp
    · rw [mpInvStrong_iff, he, hv, ha]
      exact (mpInvStrong_iff _).1 (uv_invStrong s now)
  · unfold MovingPoint.stop_by_user
    split_ifs with h1 h2
    · have henab : s.occlusion_enabled = true := by
        cases he' : s.occlusion_enabled
        · rw [hDis he'] at h2
          exact Bool.noConfusion h2
        · rfl
      rw [mpInvStrong_iff]
      refine ⟨?_, ?_, ?_⟩
      · intro _
        simp [h2]
      · intro he'
        rw [henab] at he'
        exact Bool.noConfusion he'
      · intro he'
        rw [henab] at he'
        exact Bool.noConfusion he'
    · have ha : s.occlusion_active = false := by
        cases haa : s.occlusion_active
        · rfl
        · exact absurd haa h2
      rw [mpInvStrong_iff]
      refine ⟨?_, ?_, ?_⟩
      · intro _
        simp [ha]
      · intro _
        simp
      · intro _
        simp [ha]
    · exact ⟨⟨hEn, hVis⟩, hDis⟩
  · unfold MovingPoint.finish_movement
    cases hl : s.trajectory.points.getLast?
    · simp only [hl]
      exact ⟨⟨hEn, hVis⟩, hDis⟩
    · simp only [hl]
      rw [mpInvStrong_iff]
      simp
  · intro ha
    unfold MovingPoint.start_movement
    have hv : s.occlusion_enabled = true → s.is_visible = true := by
      intro he'
      have := hEn he'
      rw [ha] at this
      cases hvv : s.is_visible
      · rw [hvv] at this
        exact Bool.noConfusion this
      · rfl
    rw [mpInvStrong_iff]
    refine ⟨?_, ?_, ?_⟩ <;> intro he' <;> simp_all

/-- C5 witness: the amended theorem applied to a mid-occlusion state (which
satisfies the strengthened invariant), here instantiated at `stop_by_user`:
stopping during occlusion keeps the invariant. -/
theorem C5_invariant_preservation_witness :
    MPInvStrong (MovingPoint.stop_by_user
      ⟨⟨[((0 : ℚ), (0 : ℚ)), (100, 0)]⟩, 5, 0, 0, (0, 0), true, false, 0,
        900, false, true, "timed", [], 0, 0, 0, 1, false, 500, some 0, true, true⟩
      3) :=
  (C5_invariant_preservation
    ⟨⟨[((0 : ℚ), (0 : ℚ)), (100, 0)]⟩, 5, 0, 0, (0, 0), true, false, 0,
      900, false, true, "timed", [], 0, 0, 0, 1, false, 500, some 0, true, true⟩
    ⟨[]⟩ 0 3 (by decide)).2.2.2.2.1

/-- C10: `MovingPoint.update` never reads its `dt` argument — two calls with
different `dt` on the same state and tick produce identical states — and the
motion summary (`is_finished`, `current_segment`, `progress`,
`current_position`) is also independent of the clock reading, so motion is
determined solely by the number of update calls (speed pixels per call),
not by elapsed real time. -/
theorem C10_update_ignores_dt (s : MovingPoint) (dt1 dt2 : ℚ) (n1 n2 : ℤ) :
    s.update dt1 n1 = s.update dt2 n1 ∧
    ((s.update dt1 n1).1.is_finished = (s.update dt1 n2).1.is_finished ∧
     (s.update dt1 n1).1.current_segment = (s.update dt1 n2).1.current_segment ∧
     (s.update dt1 n1).1.progress = (s.update dt1 n2).1.progress ∧
     (s.update dt1 n1).1.current_position = (s.update dt1 n2).1.current_position ∧
     (s.update dt1 n1).2 = (s.update dt1 n2).2) := by
  constructor
  · rfl
  · unfold MovingPoint.update MovingPoint.finish_movement
    simp only [uv_trajectory, uv_speed, uv_current_segment, uv_progress,
      uv_is_finished, uv_is_moving, uv_current_position]
    split_ifs <;> cases hl : s.trajectory.points.getLast? <;> simp [hl]

end TimeExpPy
